import Mathlib

/-!
Shallow embedding of the bounty lifecycle engine of `src/server.js`
(paisa-vasool backend).

The embedding models:
  * the persistence state (tables `users`, `bounties`, `bounty_claims`
    created in `setupDatabase`, lines 54-95), including the two plpgsql
    triggers `check_unique_open_bounty` (lines 98-117) and
    `check_unique_claim_on_open_bounty` (lines 120-142);
  * the command parser (the `/create-bounty` and `/claim-bounty` regex
    matches in `handleBountyCreation` / `handleBountyClaim`);
  * the webhook dispatcher (`app.post("/api/github/webhooks")`,
    lines 794-848) and the lifecycle handlers: `handleBountyCreation`
    (lines 978-1059), `handleBountyClaim` (lines 1061-1170),
    `/api/approve-bounty-verify` (lines 485-558), `/api/bounty/:id` PUT
    (lines 596-680), `/api/bounty/:id` DELETE (lines 682-750), and
    `/api/complete-bounty` (lines 752-768).

Outbound GitHub comment calls are modelled by a `Post` value together with
an oracle `nok : Post → Bool` saying whether the call succeeds; a failing
call behaves as a thrown error at the call site, exactly as an awaited
rejected promise does in the source.  JavaScript runtime errors that the
source can raise (reading a property of `undefined`/`null`, referencing a
name that is not in scope) are modelled by `JsErr.typeError` and
`JsErr.referenceError`.  Database errors carry their SQLSTATE code, which
the source inspects (`error.code === "23505"`, line 1159).
-/

/-- A database error, carrying the SQLSTATE code the driver exposes as
`error.code`. -/
structure DBErr where
  code : String
  message : String
deriving DecidableEq

/-- An error propagating through the JavaScript code: a database error, a
failed outbound HTTP call, a `TypeError` (property access on
`undefined`/`null`), or a `ReferenceError` (identifier not in scope). -/
inductive JsErr where
  | db (e : DBErr)
  | httpError
  | typeError
  | referenceError
deriving DecidableEq

/-- The `.code` property JavaScript reads off a caught error: only database
errors carry a SQLSTATE code. -/
def JsErr.codeOf : JsErr → Option String
  | .db e => some e.code
  | _ => none

/-- A row of the `bounties` table (lines 75-86 of `server.js`). -/
structure Bounty where
  id : Nat
  issue_id : Nat
  amount : Int
  status : String
  repository : String
  issue_title : String
  issue_url : String
  creator_id : Nat
  claimed_by : Option Nat
deriving DecidableEq

/-- A row of the `bounty_claims` table (lines 88-94 of `server.js`): note
that the schema names the pull-request column `pull_request`. -/
structure ClaimRow where
  id : Nat
  bounty_id : Nat
  user_id : Nat
  pull_request : Nat
deriving DecidableEq

/-- A row of the `users` table (lines 55-73), restricted to the columns the
modelled routes actually read. -/
structure UserRow where
  github_id : Nat
  github_installation_id : Option String
  solana_address : Option String
  name : String
  email : String
deriving DecidableEq

/-- The persistence state: the three tables plus the `SERIAL` sequence
counters for `bounties.id` and `bounty_claims.id`. -/
structure DB where
  users : List UserRow
  bounties : List Bounty
  bounty_claims : List ClaimRow
  nextBountyId : Nat
  nextClaimId : Nat
deriving DecidableEq

/-- The empty database right after `setupDatabase` (SERIAL sequences start
at 1). -/
def initialDB : DB :=
  { users := [], bounties := [], bounty_claims := [],
    nextBountyId := 1, nextClaimId := 1 }

/-- An outbound GitHub call: `issues.createComment` or
`pulls.createReviewComment`, addressed exactly as the source addresses
them. -/
inductive Post where
  | issueComment (owner repo : String) (issue_number : Nat) (body : String)
  | reviewComment (owner repo : String) (pull_number : Nat) (body : String)
deriving DecidableEq

/-! ### Command parser

`handleBountyCreation` matches `/\/create-bounty\s+(\d+)/i` and
`handleBountyClaim` matches `/\/claim-bounty\s+(\d+)/i` against the free
text, then applies `parseInt` to the first capture.  We model the regex by
a scan over the character list: at each position, match the command token
case-insensitively, then one or more whitespace characters, then one or
more digits (the leftmost such position wins, as for a JavaScript regex
with no alternation). -/

/-- ASCII lower-casing, as the `/i` regex flag applies to the letters of
the command tokens. -/
def lcChar (c : Char) : Char :=
  if 'A' ≤ c && c ≤ 'Z' then Char.ofNat (c.toNat + 32) else c

/-- A `\d` character. -/
def isDigitChar (c : Char) : Bool := '0' ≤ c && c ≤ '9'

/-- A `\s` character (the ASCII whitespace class). -/
def isSpaceChar (c : Char) : Bool :=
  c == ' ' || c == '\t' || c == '\n' || c == '\r' || c == '\x0b' || c == '\x0c'

/-- Strip a case-insensitive occurrence of `cmd` from the front of `cs`,
returning the remainder. -/
def stripCI : List Char → List Char → Option (List Char)
  | [], cs => some cs
  | _ :: _, [] => none
  | p :: ps, c :: cs => if lcChar c == lcChar p then stripCI ps cs else none

/-- `parseInt` applied to a nonempty digit string. -/
def digitsVal (ds : List Char) : Nat :=
  ds.foldl (fun n c => n * 10 + (c.toNat - 48)) 0

/-- Try to match `cmd` `\s+` `\d+` at the head of `cs`. -/
def matchCmdAt (cmd : List Char) (cs : List Char) : Option Nat :=
  match stripCI cmd cs with
  | none => none
  | some rest =>
    let sp := rest.takeWhile isSpaceChar
    if sp.isEmpty then none
    else
      let ds := (rest.dropWhile isSpaceChar).takeWhile isDigitChar
      if ds.isEmpty then none else some (digitsVal ds)

/-- Scan for the leftmost match of `cmd` `\s+` `\d+`. -/
def scanForCmd (cmd : List Char) : List Char → Option Nat
  | [] => none
  | c :: cs =>
    match matchCmdAt cmd (c :: cs) with
    | some n => some n
    | none => scanForCmd cmd cs

/-- The argument of the first occurrence of `<cmd> <decimal integer>` in
`text`, or `none` when the pattern does not occur (a missing or non-numeric
argument). -/
def parseCommandArg (cmd : String) (text : String) : Option Nat :=
  scanForCmd cmd.toList text.toList

def createBountyCmd : String := "/create-bounty"

def claimBountyCmd : String := "/claim-bounty"

/-- Does the list start with `sub`? (used for `String.prototype.includes`). -/
def listLeadsWith : List Char → List Char → Bool
  | [], _ => true
  | _ :: _, [] => false
  | a :: as, b :: bs => a == b && listLeadsWith as bs

def strIncludesAux (sub : List Char) : List Char → Bool
  | [] => sub.isEmpty
  | c :: cs => listLeadsWith sub (c :: cs) || strIncludesAux sub cs

/-- `s.includes(sub)` (case-sensitive, as in the dispatcher's checks). -/
def strIncludes (s sub : String) : Bool := strIncludesAux sub.toList s.toList

/-- `s.startsWith(sub)` (case-sensitive, as on lines 822 and 827). -/
def strLeadsWith (s sub : String) : Bool := listLeadsWith sub.toList s.toList

/-- JavaScript truthiness of an optional string (`null`/`undefined` and
`""` are falsy, as in `!owner.solana_address`). -/
def jsFalsyStr (o : Option String) : Bool := (o.getD "") == ""

/-- JavaScript truthiness of an optional number (`null`/`undefined` and `0`
are falsy, as in `if (!amount)`). -/
def jsFalsyNat (o : Option Nat) : Bool := (o.getD 0) == 0

/-! ### Database primitives with trigger semantics -/

/-- The error raised by the `check_unique_open_bounty` trigger (lines
98-109).  A plain `RAISE EXCEPTION` carries SQLSTATE `P0001`
(`raise_exception`), not `23505`. -/
def uniqueOpenBountyErr : DBErr :=
  { code := "P0001", message := "An open bounty already exists for this issue." }

/-- Body of the `check_unique_open_bounty` trigger function (lines 98-109):
raises when the inserted/updated row has `status = 'open'` and another row
with the same `issue_id`, a different `id` and `status = 'open'` exists. -/
def check_unique_open_bounty (table : List Bounty) (newRow : Bounty) : Bool :=
  newRow.status == "open" &&
    table.any (fun b =>
      b.issue_id == newRow.issue_id && b.id != newRow.id && b.status == "open")

/-- `INSERT INTO bounties ... RETURNING id` (lines 1026-1037), guarded by
the `unique_open_bounty_trigger` (lines 112-117).  The `id` field of the
argument row is replaced by the next `SERIAL` value. -/
def insertBounty (db : DB) (row : Bounty) : Except DBErr (DB × Nat) :=
  if check_unique_open_bounty db.bounties { row with id := db.nextBountyId } then
    .error uniqueOpenBountyErr
  else
    .ok ({ db with
            bounties := db.bounties ++ [{ row with id := db.nextBountyId }],
            nextBountyId := db.nextBountyId + 1 }, db.nextBountyId)

/-- Columns of the `bounty_claims` table as created on lines 88-94. -/
def bountyClaimsSchemaColumns : List String :=
  ["id", "bounty_id", "user_id", "claimed_at", "pull_request"]

/-- Target column list of the claim insert on line 1151:
`INSERT INTO bounty_claims (bounty_id, user_id, pull_request_number)`. -/
def claimInsertTargetColumns : List String :=
  ["bounty_id", "user_id", "pull_request_number"]

/-- SQLSTATE `42703` (`undefined_column`): raised when a statement names a
column the relation does not have. -/
def undefinedColumnErr : DBErr :=
  { code := "42703",
    message := "column pull_request_number of relation bounty_claims does not exist" }

/-- The error a plain `RAISE EXCEPTION` in
`check_unique_claim_on_open_bounty` would carry (SQLSTATE `P0001`). -/
def uniqueClaimErr : DBErr :=
  { code := "P0001",
    message := "A claim already exists for this pull request on an open bounty." }

/-- Body of the `check_unique_claim_on_open_bounty` trigger function (lines
120-134), with the row's `pull_request` column standing in for the
`pull_request_number` the trigger names: the trigger as written reads
`bounty_claims.pull_request_number`, a column the schema (line 93) does not
define, so executing it would itself raise SQLSTATE `42703`. -/
def check_unique_claim_on_open_bounty (db : DB) (newRow : ClaimRow) : Bool :=
  (db.bounties.any (fun b => b.id == newRow.bounty_id && b.status == "open")) &&
    (db.bounty_claims.any (fun c =>
      c.pull_request == newRow.pull_request &&
        db.bounties.any (fun b => b.id == c.bounty_id && b.status == "open") &&
        c.id != newRow.id))

/-- The claim insert of line 1151.  Its target column list names
`pull_request_number`, which the `bounty_claims` schema (line 93, column
`pull_request`) does not define, so the statement fails with SQLSTATE
`42703` before any row is inserted or any trigger runs.  The first branch
records what the statement would do if its column list matched the
schema. -/
def insertBountyClaim (db : DB) (bountyId userId prNumber : Nat) :
    Except DBErr DB :=
  if claimInsertTargetColumns.all (fun c => bountyClaimsSchemaColumns.contains c) then
    if check_unique_claim_on_open_bounty db
        { id := db.nextClaimId, bounty_id := bountyId, user_id := userId,
          pull_request := prNumber } then
      .error uniqueClaimErr
    else
      .ok { db with
            bounty_claims := db.bounty_claims ++
              [{ id := db.nextClaimId, bounty_id := bountyId, user_id := userId,
                 pull_request := prNumber }]
            nextClaimId := db.nextClaimId + 1 }
  else
    .error undefinedColumnErr

/-- `UPDATE bounties SET ... WHERE <pred>`, firing the
`unique_open_bounty_trigger` for each updated row.  The trigger sees rows
already updated by the same statement together with the not yet processed
ones; a raise aborts the whole statement (the caller keeps the original
state).  All updates the source issues target a single `id`, so at most one
row is affected in reachable states. -/
def runBountyUpdate (pred : Bounty → Bool) (f : Bounty → Bounty) :
    List Bounty → List Bounty → Except DBErr (List Bounty)
  | done, [] => .ok done
  | done, b :: rest =>
    if pred b then
      if check_unique_open_bounty (done ++ b :: rest) (f b) then
        .error uniqueOpenBountyErr
      else
        runBountyUpdate pred f (done ++ [f b]) rest
    else
      runBountyUpdate pred f (done ++ [b]) rest

/-! ### Webhook payloads and outbound messages -/

/-- The `issue` object of a webhook payload, restricted to the fields the
source reads.  `pull_request` is the truthiness of the marker object GitHub
attaches when the issue is a pull request (`payload.issue.pull_request`,
line 820); `body` is nullable. -/
structure IssuePayload where
  id : Nat
  number : Nat
  title : String
  html_url : String
  body : Option String
  pull_request : Bool
deriving DecidableEq

/-- The `pull_request` object of a webhook payload, restricted to the
fields the source reads.  `changed_files` is the numeric changed-file count
GitHub delivers (line 1115 indexes it as if it were an array). -/
structure PRPayload where
  number : Nat
  body : Option String
  head_sha : String
  changed_files : Nat
deriving DecidableEq

/-- A webhook payload, restricted to the fields the source reads.
`comment` is `payload.comment.body`; `issue` and `pull_request` are absent
(`none`) when the delivered event does not carry them. -/
structure Payload where
  action : String
  sender_id : Nat
  installation_id : Nat
  repo_owner : String
  repo_name : String
  repo_full_name : String
  comment : Option String
  issue : Option IssuePayload
  pull_request : Option PRPayload
deriving DecidableEq

/-- `process.env.FRONTEND_URL`; its value is deployment configuration, not
part of the source, so it is modelled by a fixed placeholder string. -/
def FRONTEND_URL : String := "FRONTEND_URL"

/-- `String.prototype.split` with a single-character separator. -/
def splitChars (sep : Char) : List Char → List (List Char)
  | [] => [[]]
  | c :: cs =>
    if c == sep then [] :: splitChars sep cs
    else
      match splitChars sep cs with
      | [] => [[c]]
      | h :: t => (c :: h) :: t

/-- `owner.split("/")[0]` of a `owner/repo` string (line 648 etc.). -/
def repoOwnerOf (repository : String) : String :=
  ((splitChars '/' repository.toList).map (fun l => String.mk l)).getD 0 ""

/-- `repo.split("/")[1]` of a `owner/repo` string. -/
def repoNameOf (repository : String) : String :=
  ((splitChars '/' repository.toList).map (fun l => String.mk l)).getD 1 ""

def duplicateBountyMsg : String :=
  "⚠️ An open bounty already exists for this issue. You can only have one active bounty per issue at a time."

def congratsMsg (amount : Nat) (bountyId : Nat) (repoFullName : String) : String :=
  "Congratulations! A bounty of " ++ toString amount ++
    " rupees has been created for this issue.\n\n1. To claim this bounty, type \"/claim-bounty " ++
    toString bountyId ++
    "\" somewhere in the body of your PR or in a comment.\n2. To receive payment, you must join Paisa-Baat (" ++
    FRONTEND_URL ++
    ") and complete authorization and wallet connection.\n3. Once approved, payment can take up to 3-5 days to complete.\n4. Thank you for contributing to " ++
    repoFullName ++ "!"

def joinFirstMsg : String :=
  "To claim this bounty, you need to join Paisa-Baat first. Please visit " ++
    FRONTEND_URL ++ " to create an account and complete the authorization process."

def noOpenBountyMsg (bountyId : Nat) : String :=
  "Sorry, no open bounty found with ID " ++ toString bountyId ++ "."

def ownBountyMsg : String := "Sorry, you cannot claim your own bounty."

def reviewPendingMsg : String :=
  "Thank you for your contribution! The repo owners/managers will review your code and approve it if deemed correct. In the meantime, you can check out new bounties at " ++
    FRONTEND_URL ++ "."

def alreadyClaimedMsg : String :=
  "⚠️ This bounty has already been claimed on another pull request. You can only claim a bounty once per open pull request."

def amendBody (oldAmount newAmount : Int) : String :=
  "The bounty amount for this issue has been updated from " ++ toString oldAmount ++
    " to " ++ toString newAmount ++ "."

def deletedBountyMsg (claimantId bountyId : Nat) : String :=
  "@" ++ toString claimantId ++ " The bounty you claimed (ID: " ++ toString bountyId ++
    ") has been deleted by the owner."

/-! ### handleBountyCreation (lines 978-1059) -/

/-- Lines 979-986: resolve the bounty amount from `payload.comment.body` or
else `payload.issue.body`.  Reading `.body` when `payload.issue.body` is
`null` throws a `TypeError` (this code runs before the `try` block). -/
def creationParsedAmount (p : Payload) : Except JsErr (Option Nat) :=
  match p.comment with
  | some c => .ok (parseCommandArg createBountyCmd c)
  | none =>
    match p.issue with
    | some iss =>
      match iss.body with
      | some b => .ok (parseCommandArg createBountyCmd b)
      | none => .error .typeError
    | none => .ok none

/-- Lines 1026-1052 of `handleBountyCreation`: insert the bounty row (the
`unique_open_bounty_trigger` may raise) and post the congratulation
comment.  The surrounding `catch` (lines 1053-1055) logs and **rethrows**
every error, so both an insert failure and a failed comment propagate to
the caller.  Under concurrent creations the database state this phase
observes can differ from the one the pre-check on line 1011 observed. -/
def createBountyInsertPhase (db : DB) (p : Payload) (iss : IssuePayload)
    (amount : Nat) (nok : Post → Bool) :
    DB × List Post × Except JsErr (Option Nat) :=
  match insertBounty db
      { id := 0
        issue_id := iss.id
        amount := (amount : Int)
        status := "open"
        repository := p.repo_full_name
        issue_title := iss.title
        issue_url := iss.html_url
        creator_id := p.sender_id
        claimed_by := none } with
  | .error e => (db, [], .error (.db e))
  | .ok (db', bid) =>
    let post := Post.issueComment p.repo_owner p.repo_name iss.number
      (congratsMsg amount bid p.repo_full_name)
    if nok post then (db', [post], .ok (some bid))
    else (db', [], .error .httpError)

/-- `handleBountyCreation` (lines 978-1059).  Returns the final database
state, the successfully posted comments, and either the created bounty id
(`some id`), a silent no-op (`none`: no valid amount, line 988), or a
propagated error. -/
def handleBountyCreation (db : DB) (p : Payload) (nok : Post → Bool) :
    DB × List Post × Except JsErr (Option Nat) :=
  match creationParsedAmount p with
  | .error e => (db, [], .error e)
  | .ok amt =>
    if jsFalsyNat amt then (db, [], .ok none)
    else
      match p.issue with
      | none => (db, [], .error .typeError)
      | some iss =>
        if db.bounties.any (fun b => b.issue_id == iss.id && b.status == "open") then
          let post := Post.issueComment p.repo_owner p.repo_name iss.number
            duplicateBountyMsg
          if nok post then (db, [post], .ok none)
          else (db, [], .error .httpError)
        else
          createBountyInsertPhase db p iss (amt.getD 0) nok

/-! ### handleBountyClaim (lines 1061-1170) -/

/-- Lines 1062-1079: resolve the claimed bounty id and whether the command
came from a PR comment (`payload.comment`) or a PR body
(`payload.pull_request`).  Reading `.body` of a `null` PR body throws,
outside any `try`. -/
def claimParsed (p : Payload) : Except JsErr (Option Nat × Bool) :=
  match p.comment with
  | some c => .ok (parseCommandArg claimBountyCmd c, true)
  | none =>
    match p.pull_request with
    | some pr =>
      match pr.body with
      | some b => .ok (parseCommandArg claimBountyCmd b, false)
      | none => .error .typeError
    | none => .ok (none, false)

/-- The `createComment` closure (lines 1099-1121).  For a PR comment it
posts an issue comment; otherwise it posts a review comment, but building
the `path` argument evaluates
`payload.pull_request.changed_files[0].filename` when `changed_files > 0`,
which throws a `TypeError` because `changed_files` is a number.  A missing
`payload.pull_request` or `payload.issue` object also throws. -/
def claimCreateComment (p : Payload) (isPRComment : Bool) (nok : Post → Bool)
    (body : String) : Except JsErr Post :=
  if isPRComment then
    match p.issue with
    | none => .error .typeError
    | some iss =>
      let post := Post.issueComment p.repo_owner p.repo_name iss.number body
      if nok post then .ok post else .error .httpError
  else
    match p.pull_request with
    | none => .error .typeError
    | some pr =>
      if pr.changed_files > 0 then .error .typeError
      else
        let post := Post.reviewComment p.repo_owner p.repo_name pr.number body
        if nok post then .ok post else .error .httpError

/-- The body of the `try` block of `handleBountyClaim` (lines 1084-1157). -/
def claimTryBody (db : DB) (p : Payload) (isPRComment : Bool) (bountyId : Nat)
    (nok : Post → Bool) : DB × List Post × Except JsErr Unit :=
  match db.users.find? (fun u => u.github_id == p.sender_id) with
  | none =>
    match claimCreateComment p isPRComment nok joinFirstMsg with
    | .ok post => (db, [post], .ok ())
    | .error e => (db, [], .error e)
  | some _ =>
    match db.bounties.find? (fun b => b.id == bountyId && b.status == "open") with
    | none =>
      match claimCreateComment p isPRComment nok (noOpenBountyMsg bountyId) with
      | .ok post => (db, [post], .ok ())
      | .error e => (db, [], .error e)
    | some bounty =>
      if bounty.creator_id == p.sender_id then
        match claimCreateComment p isPRComment nok ownBountyMsg with
        | .ok post => (db, [post], .ok ())
        | .error e => (db, [], .error e)
      else
        match p.pull_request with
        | none => (db, [], .error .typeError)
        | some pr =>
          match insertBountyClaim db bounty.id p.sender_id pr.number with
          | .error e => (db, [], .error (.db e))
          | .ok db' =>
            match claimCreateComment p isPRComment nok reviewPendingMsg with
            | .ok post => (db', [post], .ok ())
            | .error e => (db', [], .error e)

/-- The `catch` block of `handleBountyClaim` (lines 1158-1166), applied to
the outcome of the `try` body: it posts the "already claimed" comment only
when `error.code === "23505"`, but that branch references the
`createComment` constant declared inside the `try` block, which is out of
scope in the `catch`, so reaching it throws a `ReferenceError`.  Every
other error is logged (line 1165) and swallowed: the function returns
normally. -/
def claimCatchWrap (r : DB × List Post × Except JsErr Unit) :
    DB × List Post × Except JsErr Unit :=
  match r.2.2 with
  | .ok _ => r
  | .error e =>
    if e.codeOf == some "23505" then (r.1, r.2.1, .error .referenceError)
    else (r.1, r.2.1, .ok ())

/-- `handleBountyClaim` (lines 1061-1170): parse, early return on a missing
bounty id, then the `try` body wrapped in the `catch`. -/
def handleBountyClaim (db : DB) (p : Payload) (nok : Post → Bool) :
    DB × List Post × Except JsErr Unit :=
  match claimParsed p with
  | .error e => (db, [], .error e)
  | .ok (bid, isPRComment) =>
    if jsFalsyNat bid then (db, [], .ok ())
    else claimCatchWrap (claimTryBody db p isPRComment (bid.getD 0) nok)

/-! ### POST /api/approve-bounty-verify (lines 485-558) -/

/-- The response of the approve route.  `payout` is the 200 response with
`fromWalletAddress`, `toWalletAddress`, `amount` and `bountyId` (lines
546-551); the other constructors are the 404/400/401/500 error bodies. -/
inductive ApproveResp where
  | notFound
  | noClaim
  | unauthorized
  | userMissing
  | noSolana
  | payout (fromWalletAddress toWalletAddress : String) (amount : Int)
      (bountyId : Nat)
  | serverError
deriving DecidableEq

/-- `app.post("/api/approve-bounty-verify")` (lines 485-558).  `reqUser` is
the authenticated user's `github_id`.  Step order as in the source: bounty
lookup, claim lookup, creator check, user lookups, Solana-address check,
then the status/claimed_by update (which fires the
`unique_open_bounty_trigger`, vacuously, since the new status is not
`open`). -/
def approveBountyVerify (db : DB) (reqUser bountyId claimantId : Nat) :
    DB × ApproveResp :=
  match db.bounties.find? (fun b => b.id == bountyId) with
  | none => (db, .notFound)
  | some bounty =>
    match db.bounty_claims.find?
        (fun c => c.bounty_id == bountyId && c.user_id == claimantId) with
    | none => (db, .noClaim)
    | some _ =>
      if bounty.creator_id != reqUser then (db, .unauthorized)
      else
        match db.users.find? (fun u => u.github_id == bounty.creator_id),
              db.users.find? (fun u => u.github_id == claimantId) with
        | some owner, some claimant =>
          if jsFalsyStr owner.solana_address || jsFalsyStr claimant.solana_address then
            (db, .noSolana)
          else
            match runBountyUpdate (fun b => b.id == bountyId)
                (fun b => { b with
                            status := "payment pending"
                            claimed_by := some claimantId }) [] db.bounties with
            | .error _ => (db, .serverError)
            | .ok tb =>
              ({ db with bounties := tb },
                .payout (owner.solana_address.getD "")
                  (claimant.solana_address.getD "") bounty.amount bountyId)
        | _, _ => (db, .userMissing)

/-! ### PUT /api/bounty/:id (lines 596-680) -/

inductive UpdResp where
  | notFoundOrNotOwner
  | success
  | serverError
deriving DecidableEq

/-- The best-effort `for` loop over pull requests (lines 659-671): each
`createReviewComment` is awaited with **no** per-item `try`, so the first
failing post aborts the loop and the error propagates to the route's
`catch`.  Returns the successfully made posts and whether the loop
completed. -/
def prFanout (nok : Post → Bool) (mk : Nat → Post) : List Nat → List Post × Bool
  | [] => ([], true)
  | pr :: rest =>
    let post := mk pr
    if nok post then
      let r := prFanout nok mk rest
      (post :: r.1, r.2)
    else ([], false)

/-- `app.put("/api/bounty/:id")` (lines 596-680): creator check, in-place
amount update (auto-committed, no transaction), then an issue comment
(wrapped in its own `try`, lines 645-656, so its failure is only logged)
and the unprotected per-PR review-comment loop. -/
def updateBountyAmount (db : DB) (reqUser bountyId : Nat) (newAmount : Int)
    (nok : Post → Bool) : DB × List Post × UpdResp :=
  match db.bounties.find? (fun b => b.id == bountyId && b.creator_id == reqUser) with
  | none => (db, [], .notFoundOrNotOwner)
  | some bounty =>
    match runBountyUpdate (fun b => b.id == bountyId)
        (fun b => { b with amount := newAmount }) [] db.bounties with
    | .error _ => (db, [], .serverError)
    | .ok tb =>
      let db1 := { db with bounties := tb }
      let prNums := (db1.bounty_claims.filter (fun c => c.bounty_id == bountyId)).map
        (fun c => c.pull_request)
      let issuePost := Post.issueComment (repoOwnerOf bounty.repository)
        (repoNameOf bounty.repository) bounty.issue_id
        (amendBody bounty.amount newAmount)
      let issuePosts := if nok issuePost then [issuePost] else []
      let r := prFanout nok
        (fun pr => Post.reviewComment (repoOwnerOf bounty.repository)
          (repoNameOf bounty.repository) pr (amendBody bounty.amount newAmount))
        prNums
      if r.2 then (db1, issuePosts ++ r.1, .success)
      else (db1, issuePosts ++ r.1, .serverError)

/-! ### DELETE /api/bounty/:id (lines 682-750) -/

inductive DelResp where
  | notFoundOrNotOwner
  | success
deriving DecidableEq

/-- `SELECT DISTINCT user_id FROM bounty_claims WHERE bounty_id = $1`
(lines 702-705), keeping first occurrences. -/
def distinctUserIds (claims : List ClaimRow) : List Nat :=
  claims.foldl (fun acc c => if acc.contains c.user_id then acc else acc ++ [c.user_id]) []

/-- The claimant notification loop (lines 728-740): each comment is wrapped
in its own `try`/`catch`, so one failure does not stop the others. -/
def claimantFanout (nok : Post → Bool) (mk : Nat → Post) : List Nat → List Post
  | [] => []
  | u :: rest =>
    let post := mk u
    if nok post then post :: claimantFanout nok mk rest
    else claimantFanout nok mk rest

/-- `app.delete("/api/bounty/:id")` (lines 682-750): inside one
`BEGIN`/`COMMIT` transaction it checks `id` and `creator_id` (no status
check), collects the distinct claimants, deletes all claim rows of the
bounty and the bounty row; after the commit it best-effort notifies every
claimant.  Nothing between `BEGIN` and `COMMIT` can fail here, so the
route's `ROLLBACK`/500 path is unreachable and not modelled. -/
def deleteBounty (db : DB) (reqUser bountyId : Nat) (nok : Post → Bool) :
    DB × List Post × DelResp :=
  match db.bounties.find? (fun b => b.id == bountyId && b.creator_id == reqUser) with
  | none => (db, [], .notFoundOrNotOwner)
  | some bounty =>
    let claimants := distinctUserIds
      (db.bounty_claims.filter (fun c => c.bounty_id == bountyId))
    let db' := { db with
      bounty_claims := db.bounty_claims.filter (fun c => !(c.bounty_id == bountyId))
      bounties := db.bounties.filter (fun b => !(b.id == bountyId)) }
    let posts := claimantFanout nok
      (fun u => Post.issueComment (repoOwnerOf bounty.repository)
        (repoNameOf bounty.repository) bounty.issue_id (deletedBountyMsg u bountyId))
      claimants
    (db', posts, .success)

/-! ### POST /api/complete-bounty (lines 752-768) -/

inductive CompResp where
  | success
  | serverError
deriving DecidableEq

/-- `app.post("/api/complete-bounty")` (lines 752-768): one unconditional
`UPDATE bounties SET status = 'completed' WHERE id = $1`; the
`unique_open_bounty_trigger` fires but the new status is not `open`, so it
never raises. -/
def completeBounty (db : DB) (bountyId : Nat) : DB × CompResp :=
  match runBountyUpdate (fun b => b.id == bountyId)
      (fun b => { b with status := "completed" }) [] db.bounties with
  | .ok tb => ({ db with bounties := tb }, .success)
  | .error _ => (db, .serverError)

/-! ### The webhook dispatcher (lines 794-848) -/

/-- The `installation`/`deleted` update (lines 803-816): idempotently clears
the sender's stored installation reference. -/
def installationPhase (db : DB) (event : String) (p : Payload) : DB :=
  if event == "installation" && p.action == "deleted" then
    { db with users := db.users.map (fun u =>
        if u.github_id == p.sender_id then { u with github_installation_id := none }
        else u) }
  else db

/-- The event-routing chain (lines 818-841), run against the state left by
the installation phase. -/
def routePhase (db0 : DB) (event : String) (p : Payload) (nok : Post → Bool) :
    DB × List Post × Except JsErr Unit :=
  if event == "issue_comment" && p.action == "created" then
    match p.comment with
    | none => (db0, [], .error .typeError)
    | some c =>
      match p.issue with
      | none => (db0, [], .error .typeError)
      | some iss =>
        if iss.pull_request then
          if strLeadsWith c claimBountyCmd then handleBountyClaim db0 p nok
          else (db0, [], .ok ())
        else
          if strLeadsWith c createBountyCmd then
            let r := handleBountyCreation db0 p nok
            (r.1, r.2.1, r.2.2.map (fun _ => ()))
          else (db0, [], .ok ())
  else if event == "issues" && p.action == "opened" then
    match p.issue with
    | none => (db0, [], .error .typeError)
    | some iss =>
      match iss.body with
      | none => (db0, [], .ok ())
      | some b =>
        if b != "" && strIncludes b createBountyCmd then
          let r := handleBountyCreation db0 p nok
          (r.1, r.2.1, r.2.2.map (fun _ => ()))
        else (db0, [], .ok ())
  else if event == "pull_request" && p.action == "opened" then
    match p.pull_request with
    | none => (db0, [], .error .typeError)
    | some pr =>
      match pr.body with
      | none => (db0, [], .ok ())
      | some b =>
        if b != "" && strIncludes b claimBountyCmd then handleBountyClaim db0 p nok
        else (db0, [], .ok ())
  else (db0, [], .ok ())

/-- The body of the dispatcher's `try` block after signature verification:
the `installation`/`deleted` update (lines 803-816) followed by the
event-routing chain (lines 818-841).  Property reads on absent payload
objects throw `TypeError`s at exactly the places the source reads them. -/
def webhookBody (db : DB) (event : String) (p : Payload) (nok : Post → Bool) :
    DB × List Post × Except JsErr Unit :=
  routePhase (installationPhase db event p) event p nok

/-- `app.post("/api/github/webhooks")` (lines 794-848).  `verifyR` is the
awaited outcome of `gitHubApp.webhooks.verify(body, signature)` (line 800):
the source discards its boolean result, so only a **thrown** verification
error influences control flow.  Any error thrown inside the `try` lands in
the `catch` (lines 844-847), which logs it and responds
`500 Failed to process webhook`; otherwise the route responds
`200 Webhook received`.  The returned `Nat` is the HTTP status. -/
def webhookRoute (db : DB) (event : String) (verifyR : Except JsErr Bool)
    (p : Payload) (nok : Post → Bool) : DB × List Post × Nat :=
  match verifyR with
  | .error _ => (db, [], 500)
  | .ok _ =>
    let r := webhookBody db event p nok
    match r.2.2 with
    | .ok _ => (r.1, r.2.1, 200)
    | .error _ => (r.1, r.2.1, 500)

/-! ### Reachability of the bounty store -/

/-- One state transition of the persisted store: a core bounty operation
(creation, claim, approval, amount update, completion, deletion) or an
arbitrary rewrite of the `users` table (covering the out-of-scope
account/OAuth/installation routes, none of which touch bounty rows). -/
inductive OpStep : DB → DB → Prop where
  | create (db : DB) (p : Payload) (nok : Post → Bool) :
      OpStep db (handleBountyCreation db p nok).1
  | claim (db : DB) (p : Payload) (nok : Post → Bool) :
      OpStep db (handleBountyClaim db p nok).1
  | approve (db : DB) (reqUser bountyId claimantId : Nat) :
      OpStep db (approveBountyVerify db reqUser bountyId claimantId).1
  | amount (db : DB) (reqUser bountyId : Nat) (newAmount : Int) (nok : Post → Bool) :
      OpStep db (updateBountyAmount db reqUser bountyId newAmount nok).1
  | complete (db : DB) (bountyId : Nat) :
      OpStep db (completeBounty db bountyId).1
  | delete (db : DB) (reqUser bountyId : Nat) (nok : Post → Bool) :
      OpStep db (deleteBounty db reqUser bountyId nok).1
  | webhook (db : DB) (event : String) (verifyR : Except JsErr Bool) (p : Payload)
      (nok : Post → Bool) :
      OpStep db (webhookRoute db event verifyR p nok).1
  | usersWrite (db : DB) (us : List UserRow) :
      OpStep db { db with users := us }

/-- A database state reachable from the fresh store through the modelled
operations. -/
inductive Reachable : DB → Prop where
  | init : Reachable initialDB
  | step {db db' : DB} : Reachable db → OpStep db db' → Reachable db'

/-- All bounty ids are below the `SERIAL` counter. -/
def IdsBelow (db : DB) : Prop := ∀ b ∈ db.bounties, b.id < db.nextBountyId

/-- At most one bounty row with `status = 'open'` per `issue_id`. -/
def OpenUnique (db : DB) : Prop :=
  ∀ issue : Nat,
    db.bounties.countP (fun b => b.issue_id == issue && b.status == "open") ≤ 1

/-- The inductive invariant of the bounty store. -/
def BountyInv (db : DB) : Prop := IdsBelow db ∧ OpenUnique db

/-! ### Concrete scenario data used in the theorems below -/

/-- A registered bounty creator (`github_id = 1`) with a Solana address. -/
def userOwner : UserRow :=
  { github_id := 1, github_installation_id := some "inst",
    solana_address := some "OWNERSOL", name := "owner", email := "o@x" }

/-- A registered claimant (`github_id = 2`) with a Solana address. -/
def userClaimant : UserRow :=
  { github_id := 2, github_installation_id := some "inst",
    solana_address := some "CLAIMSOL", name := "claimant", email := "c@x" }

/-- An open bounty with id 9 on issue 42, created by user 1. -/
def bountyOpen9 : Bounty :=
  { id := 9, issue_id := 42, amount := 100, status := "open",
    repository := "org/repo", issue_title := "t", issue_url := "u",
    creator_id := 1, claimed_by := none }

/-- A claim row: user 2 claimed bounty 9 on pull request 7. -/
def claimRow97 : ClaimRow :=
  { id := 1, bounty_id := 9, user_id := 2, pull_request := 7 }

/-- Store with the open bounty 9 and user 2's existing claim on PR 7. -/
def dbOpenWithClaim : DB :=
  { users := [userOwner, userClaimant], bounties := [bountyOpen9],
    bounty_claims := [claimRow97], nextBountyId := 10, nextClaimId := 2 }

/-- Store with the open bounty 9 and no claims yet. -/
def dbFirstClaim : DB :=
  { users := [userOwner, userClaimant], bounties := [bountyOpen9],
    bounty_claims := [], nextBountyId := 10, nextClaimId := 1 }

/-- Pull request 7 whose body claims bounty 9 (no changed files reported,
so the review-comment `path` expression does not throw). -/
def prClaim9 : PRPayload :=
  { number := 7, body := some "/claim-bounty 9", head_sha := "sha",
    changed_files := 0 }

/-- A `pull_request`/`opened` payload from user 2 claiming bounty 9. -/
def pClaim9PR : Payload :=
  { action := "opened", sender_id := 2, installation_id := 7,
    repo_owner := "org", repo_name := "repo", repo_full_name := "org/repo",
    comment := none, issue := none, pull_request := some prClaim9 }

/-- Issue 42 (not a pull request). -/
def issue42 : IssuePayload :=
  { id := 42, number := 5, title := "t", html_url := "u",
    body := some "/create-bounty 500", pull_request := false }

/-- An `issue_comment`/`created` payload on issue 42 whose comment asks for
a 500-rupee bounty; sender is user 3. -/
def pCreate42 : Payload :=
  { action := "created", sender_id := 3, installation_id := 7,
    repo_owner := "org", repo_name := "repo", repo_full_name := "org/repo",
    comment := some "/create-bounty 500", issue := some issue42,
    pull_request := none }

/-- Store already holding an open bounty (id 1) on issue 42. -/
def dbOpen42 : DB :=
  { users := [], bounties :=
      [{ id := 1, issue_id := 42, amount := 300, status := "open",
         repository := "org/repo", issue_title := "t", issue_url := "u",
         creator_id := 1, claimed_by := none }],
    bounty_claims := [], nextBountyId := 2, nextClaimId := 1 }

/-- The completed bounty 9 (after approval and completion), claimed by
user 2. -/
def bountyCompleted9 : Bounty :=
  { bountyOpen9 with status := "completed", claimed_by := some 2 }

/-- Store holding the completed bounty 9 and its claim row. -/
def dbCompleted9 : DB :=
  { users := [userOwner, userClaimant], bounties := [bountyCompleted9],
    bounty_claims := [claimRow97], nextBountyId := 10, nextClaimId := 2 }

/-- Store with open bounty 9 claimed on two pull requests (7 by user 2 and
8 by user 3). -/
def dbTwoClaims : DB :=
  { users := [userOwner, userClaimant], bounties := [bountyOpen9],
    bounty_claims :=
      [claimRow97, { id := 2, bounty_id := 9, user_id := 3, pull_request := 8 }],
    nextBountyId := 10, nextClaimId := 3 }

/-- A notification oracle that fails exactly the review comment on pull
request 7 and lets every other post succeed. -/
def nokFailPR7 : Post → Bool
  | .reviewComment _ _ 7 _ => false
  | _ => true

/-- An `issue_comment` payload whose `/create-bounty` has a non-numeric
argument. -/
def pBadArgComment : Payload :=
  { action := "created", sender_id := 3, installation_id := 7,
    repo_owner := "org", repo_name := "repo", repo_full_name := "org/repo",
    comment := some "/create-bounty abc", issue := some issue42,
    pull_request := none }

/-- Issue 43 whose body mentions `/create-bounty` with no argument. -/
def issue43 : IssuePayload :=
  { id := 43, number := 6, title := "t", html_url := "u",
    body := some "please /create-bounty", pull_request := false }

/-- An `issues`/`opened` payload whose `/create-bounty` has a missing
argument. -/
def pBadArgIssue : Payload :=
  { action := "opened", sender_id := 3, installation_id := 7,
    repo_owner := "org", repo_name := "repo", repo_full_name := "org/repo",
    comment := none, issue := some issue43, pull_request := none }

/-! ### Helper lemmas about the database primitives -/

/-- A successful `UPDATE ... WHERE pred` maps `f` over exactly the rows
satisfying `pred`. -/
theorem runBountyUpdate_ok_shape (pred : Bounty → Bool) (f : Bounty → Bounty) :
    ∀ (todo done res : List Bounty),
      runBountyUpdate pred f done todo = .ok res →
      res = done ++ todo.map (fun b => if pred b then f b else b) := by
  intro todo
  induction todo with
  | nil =>
    intro done res h
    simp only [runBountyUpdate, Except.ok.injEq] at h
    subst h
    simp
  | cons b rest ih =>
    intro done res h
    simp only [runBountyUpdate] at h
    by_cases hp : pred b
    · simp only [hp, if_true] at h
      by_cases hc : check_unique_open_bounty (done ++ b :: rest) (f b)
      · simp [hc] at h
      · simp only [hc, if_false] at h
        have hres := ih _ _ h
        simp [hres, hp]
    · simp only [hp, if_false] at h
      have hres := ih _ _ h
      simp [hres, hp]

/-- An `UPDATE` whose new rows never have status `open` cannot fire the
`unique_open_bounty_trigger`, hence always succeeds. -/
theorem runBountyUpdate_ok_of_nonopen (pred : Bounty → Bool) (f : Bounty → Bounty)
    (hf : ∀ b, ((f b).status == "open") = false) :
    ∀ (todo done : List Bounty),
      runBountyUpdate pred f done todo =
        .ok (done ++ todo.map (fun b => if pred b then f b else b)) := by
  intro todo
  induction todo with
  | nil => intro done; simp [runBountyUpdate]
  | cons b rest ih =>
    intro done
    simp only [runBountyUpdate]
    by_cases hp : pred b
    · have hc : check_unique_open_bounty (done ++ b :: rest) (f b) = false := by
        simp [check_unique_open_bounty, hf b]
      simp [hp, hc, ih (done ++ [f b])]
    · simp [hp, ih (done ++ [b])]

/-- The invariant only mentions `bounties` and `nextBountyId`; it transfers
along any step preserving those. -/
theorem store_inv_congr {db db' : DB} (hb : db'.bounties = db.bounties)
    (hn : db'.nextBountyId = db.nextBountyId) (h : BountyInv db) : BountyInv db' := by
  obtain ⟨h1, h2⟩ := h
  refine ⟨?_, ?_⟩
  · intro b hbm
    rw [hb] at hbm
    rw [hn]
    exact h1 b hbm
  · intro issue
    show List.countP _ db'.bounties ≤ 1
    rw [hb]
    exact h2 issue

/-- A successful bounty insert preserves the invariant: the trigger
guarantees no other open bounty on the same issue existed. -/
theorem insertBounty_inv {db : DB} {row : Bounty} {db' : DB} {bid : Nat}
    (hInv : BountyInv db) (h : insertBounty db row = .ok (db', bid)) :
    BountyInv db' := by
  unfold insertBounty at h
  split at h
  · exact absurd h (by simp)
  · rename_i hcheck
    simp only [Except.ok.injEq, Prod.mk.injEq] at h
    obtain ⟨hdb, _⟩ := h
    subst hdb
    obtain ⟨h1, h2⟩ := hInv
    refine ⟨?_, ?_⟩
    · intro b hbm
      simp only [List.mem_append, List.mem_singleton] at hbm
      rcases hbm with hbm | hbm
      · exact Nat.lt_succ_of_lt (h1 b hbm)
      · subst hbm
        exact Nat.lt_succ_self _
    · intro issue
      show List.countP (fun b : Bounty => b.issue_id == issue && b.status == "open") _ ≤ 1
      rw [List.countP_append]
      by_cases hpn :
          (({ row with id := db.nextBountyId } : Bounty).issue_id == issue &&
            ({ row with id := db.nextBountyId } : Bounty).status == "open") = true
      · have hz : List.countP (fun b : Bounty => b.issue_id == issue && b.status == "open")
            db.bounties = 0 := by
          rw [List.countP_eq_zero]
          intro b hbm hpb
          simp only [Bool.and_eq_true, beq_iff_eq] at hpn hpb
          refine hcheck ?_
          simp only [check_unique_open_bounty, Bool.and_eq_true, List.any_eq_true,
            beq_iff_eq, bne_iff_ne]
          exact ⟨hpn.2, b, hbm, ⟨hpb.1.trans hpn.1.symm, Nat.ne_of_lt (h1 b hbm)⟩, hpb.2⟩
        simp [hz, hpn]
      · have hone : List.countP (fun b : Bounty => b.issue_id == issue && b.status == "open")
            [{ row with id := db.nextBountyId }] = 0 := by
          simp only [List.countP_singleton]
          simp [hpn]
        rw [hone]
        simpa using h2 issue

/-- Mapping a row transformation that preserves ids and never makes a row
open-on-an-issue that was not already open on it preserves the invariant. -/
theorem mapUpdate_inv {db : DB} (g : Bounty → Bounty)
    (hid : ∀ b, (g b).id = b.id)
    (hp : ∀ (b : Bounty) (issue : Nat),
      ((g b).issue_id == issue && (g b).status == "open") = true →
      (b.issue_id == issue && b.status == "open") = true)
    (h : BountyInv db) : BountyInv { db with bounties := db.bounties.map g } := by
  obtain ⟨h1, h2⟩ := h
  refine ⟨?_, ?_⟩
  · intro b hbm
    simp only [List.mem_map] at hbm
    obtain ⟨a, ha, rfl⟩ := hbm
    show (g a).id < db.nextBountyId
    rw [hid a]
    exact h1 a ha
  · intro issue
    show List.countP _ (db.bounties.map g) ≤ 1
    rw [List.countP_map]
    refine le_trans (List.countP_mono_left ?_) (h2 issue)
    intro a _ hpa
    exact hp a issue hpa

/-- Filtering the bounty table preserves the invariant. -/
theorem filter_inv {db : DB} (q : Bounty → Bool) :
    BountyInv db → BountyInv { db with bounties := db.bounties.filter q } := by
  intro ⟨h1, h2⟩
  refine ⟨?_, ?_⟩
  · intro b hbm
    exact h1 b (List.mem_of_mem_filter hbm)
  · intro issue
    exact le_trans ((List.filter_sublist db.bounties).countP_le _) (h2 issue)

/-! ### Invariant preservation by each operation -/

/-- The insert phase of bounty creation preserves the invariant. -/
theorem createBountyInsertPhase_inv (db : DB) (p : Payload) (iss : IssuePayload)
    (amount : Nat) (nok : Post → Bool) (h : BountyInv db) :
    BountyInv (createBountyInsertPhase db p iss amount nok).1 := by
  unfold createBountyInsertPhase
  split
  · exact h
  · rename_i db' bid hins
    have h' := insertBounty_inv h hins
    dsimp only
    split
    · exact h'
    · exact h'

/-- `handleBountyCreation` preserves the invariant. -/
theorem handleBountyCreation_inv (db : DB) (p : Payload) (nok : Post → Bool)
    (h : BountyInv db) : BountyInv (handleBountyCreation db p nok).1 := by
  unfold handleBountyCreation
  split
  · exact h
  · split
    · exact h
    · split
      · exact h
      · split
        · dsimp only
          split
          · exact h
          · exact h
        · exact createBountyInsertPhase_inv _ _ _ _ _ h

/-- A successful claim insert leaves the bounty table and its sequence
counter untouched. -/
theorem insertBountyClaim_store {db db' : DB} {b u pn : Nat}
    (h : insertBountyClaim db b u pn = .ok db') :
    db'.bounties = db.bounties ∧ db'.nextBountyId = db.nextBountyId := by
  unfold insertBountyClaim at h
  split at h
  · split at h
    · exact absurd h (by simp)
    · simp only [Except.ok.injEq] at h
      subst h
      exact ⟨rfl, rfl⟩
  · exact absurd h (by simp)

/-- The `try` body of `handleBountyClaim` leaves the bounty table and its
sequence counter untouched. -/
theorem claimTryBody_store (db : DB) (p : Payload) (ipc : Bool) (bid : Nat)
    (nok : Post → Bool) :
    (claimTryBody db p ipc bid nok).1.bounties = db.bounties ∧
    (claimTryBody db p ipc bid nok).1.nextBountyId = db.nextBountyId := by
  unfold claimTryBody
  split
  · split
    · exact ⟨rfl, rfl⟩
    · exact ⟨rfl, rfl⟩
  · split
    · split
      · exact ⟨rfl, rfl⟩
      · exact ⟨rfl, rfl⟩
    · split
      · split
        · exact ⟨rfl, rfl⟩
        · exact ⟨rfl, rfl⟩
      · split
        · exact ⟨rfl, rfl⟩
        · split
          · exact ⟨rfl, rfl⟩
          · rename_i db' hins
            have hs := insertBountyClaim_store hins
            split
            · exact hs
            · exact hs

/-- The catch wrapper does not change the database component. -/
theorem claimCatchWrap_fst (r : DB × List Post × Except JsErr Unit) :
    (claimCatchWrap r).1 = r.1 := by
  unfold claimCatchWrap
  split
  · rfl
  · split
    · rfl
    · rfl

/-- `handleBountyClaim` preserves the invariant (it never writes the bounty
table). -/
theorem handleBountyClaim_inv (db : DB) (p : Payload) (nok : Post → Bool)
    (h : BountyInv db) : BountyInv (handleBountyClaim db p nok).1 := by
  unfold handleBountyClaim
  split
  · exact h
  · rename_i bid isPRComment heq
    split
    · exact h
    · rw [claimCatchWrap_fst]
      have hs := claimTryBody_store db p isPRComment (bid.getD 0) nok
      exact store_inv_congr hs.1 hs.2 h

/-- The approve route preserves the invariant. -/
theorem approveBountyVerify_inv (db : DB) (reqUser bountyId claimantId : Nat)
    (h : BountyInv db) :
    BountyInv (approveBountyVerify db reqUser bountyId claimantId).1 := by
  unfold approveBountyVerify
  split
  · exact h
  · split
    · exact h
    · split
      · exact h
      · split
        · split
          · exact h
          · split
            · exact h
            · rename_i tb hok
              have hshape := runBountyUpdate_ok_shape _ _ _ _ _ hok
              simp only [List.nil_append] at hshape
              subst hshape
              exact mapUpdate_inv _
                (by intro b; split <;> rfl)
                (by
                  intro b issue hx
                  by_cases hb : (b.id == bountyId) = true
                  · simp only [hb, if_true] at hx
                    simp at hx
                  · simp only [hb, if_false] at hx
                    exact hx) h
        · exact h

/-- The amount-update route preserves the invariant. -/
theorem updateBountyAmount_inv (db : DB) (reqUser bountyId : Nat)
    (newAmount : Int) (nok : Post → Bool) (h : BountyInv db) :
    BountyInv (updateBountyAmount db reqUser bountyId newAmount nok).1 := by
  unfold updateBountyAmount
  split
  · exact h
  · split
    · exact h
    · rename_i tb hok
      have hshape := runBountyUpdate_ok_shape _ _ _ _ _ hok
      simp only [List.nil_append] at hshape
      subst hshape
      have h' := mapUpdate_inv
        (fun b => if b.id == bountyId then { b with amount := newAmount } else b)
        (by intro b; dsimp only; split <;> rfl)
        (by
          intro b issue hx
          by_cases hb : (b.id == bountyId) = true
          · simp only [hb, if_true] at hx
            exact hx
          · simp only [hb, if_false] at hx
            exact hx) h
      dsimp only
      split
      · exact h'
      · exact h'

/-- The complete route preserves the invariant. -/
theorem completeBounty_inv (db : DB) (bountyId : Nat) (h : BountyInv db) :
    BountyInv (completeBounty db bountyId).1 := by
  unfold completeBounty
  split
  · rename_i tb hok
    have hshape := runBountyUpdate_ok_shape _ _ _ _ _ hok
    simp only [List.nil_append] at hshape
    subst hshape
    exact mapUpdate_inv _
      (by intro b; split <;> rfl)
      (by
        intro b issue hx
        by_cases hb : (b.id == bountyId) = true
        · simp only [hb, if_true] at hx
          simp at hx
        · simp only [hb, if_false] at hx
          exact hx) h
  · exact h

/-- The delete route preserves the invariant. -/
theorem deleteBounty_inv (db : DB) (reqUser bountyId : Nat) (nok : Post → Bool)
    (h : BountyInv db) : BountyInv (deleteBounty db reqUser bountyId nok).1 := by
  unfold deleteBounty
  split
  · exact h
  · dsimp only
    exact filter_inv _ h

/-- The installation phase touches only the users table. -/
theorem installationPhase_inv (db : DB) (event : String) (p : Payload)
    (h : BountyInv db) : BountyInv (installationPhase db event p) := by
  unfold installationPhase
  split
  · exact store_inv_congr rfl rfl h
  · exact h

/-- The routing phase preserves the invariant. -/
theorem routePhase_inv (db0 : DB) (event : String) (p : Payload)
    (nok : Post → Bool) (h : BountyInv db0) :
    BountyInv (routePhase db0 event p nok).1 := by
  unfold routePhase
  split
  · split
    · exact h
    · split
      · exact h
      · split
        · split
          · exact handleBountyClaim_inv _ _ _ h
          · exact h
        · split
          · dsimp only
            exact handleBountyCreation_inv _ _ _ h
          · exact h
  · split
    · split
      · exact h
      · split
        · exact h
        · split
          · dsimp only
            exact handleBountyCreation_inv _ _ _ h
          · exact h
    · split
      · split
        · exact h
        · split
          · exact h
          · split
            · exact handleBountyClaim_inv _ _ _ h
            · exact h
      · exact h

/-- The whole webhook route preserves the invariant. -/
theorem webhookRoute_inv (db : DB) (event : String) (verifyR : Except JsErr Bool)
    (p : Payload) (nok : Post → Bool) (h : BountyInv db) :
    BountyInv (webhookRoute db event verifyR p nok).1 := by
  unfold webhookRoute webhookBody
  split
  · exact h
  · have h' := routePhase_inv (installationPhase db event p) event p nok
      (installationPhase_inv db event p h)
    dsimp only
    split
    · exact h'
    · exact h'

/-- Every operation step preserves the invariant. -/
theorem opStep_inv {db db' : DB} (h : BountyInv db) (hs : OpStep db db') :
    BountyInv db' := by
  cases hs with
  | create p nok => exact handleBountyCreation_inv _ p nok h
  | claim p nok => exact handleBountyClaim_inv _ p nok h
  | approve reqUser bountyId claimantId =>
    exact approveBountyVerify_inv _ reqUser bountyId claimantId h
  | amount reqUser bountyId newAmount nok =>
    exact updateBountyAmount_inv _ reqUser bountyId newAmount nok h
  | complete bountyId => exact completeBounty_inv _ bountyId h
  | delete reqUser bountyId nok => exact deleteBounty_inv _ reqUser bountyId nok h
  | webhook event verifyR p nok => exact webhookRoute_inv _ event verifyR p nok h
  | usersWrite us => exact store_inv_congr rfl rfl h

/-- The fresh store satisfies the invariant. -/
theorem initialDB_inv : BountyInv initialDB := by
  refine ⟨?_, ?_⟩
  · intro b hb
    simp [initialDB] at hb
  · intro issue
    show List.countP _ ([] : List Bounty) ≤ 1
    simp

/-- Every reachable store satisfies the invariant. -/
theorem reachable_inv {db : DB} (h : Reachable db) : BountyInv db := by
  induction h with
  | init => exact initialDB_inv
  | step _ hs ih => exact opStep_inv ih hs

/-! ### Claim theorems -/

/-- C1: for every reachable state of the bounty store and every core
operation, at most one bounty with status `open` exists per `issue_id`; in
particular, processing a `/create-bounty` command for an issue that already
has an open bounty adds no new bounty row. -/
theorem c1_unique_open_bounty :
    (∀ db : DB, Reachable db →
      ∀ issue : Nat,
        List.countP (fun b : Bounty => b.issue_id == issue && b.status == "open")
          db.bounties ≤ 1) ∧
    (∀ (db : DB) (p : Payload) (nok : Post → Bool) (iss : IssuePayload),
      p.issue = some iss →
      (db.bounties.any (fun b => b.issue_id == iss.id && b.status == "open")) = true →
      (handleBountyCreation db p nok).1.bounties = db.bounties) := by
  constructor
  · intro db h issue
    exact (reachable_inv h).2 issue
  · intro db p nok iss hiss hany
    unfold handleBountyCreation
    split
    · rfl
    · split
      · rfl
      · rw [hiss]
        simp only [hany, if_true]
        split
        · rfl
        · rfl

/-- Witness for C1: the store obtained by creating one bounty from the
fresh store is reachable and satisfies the bound, and re-processing the
same creation command adds no bounty row. -/
theorem c1_unique_open_bounty_witness :
    List.countP (fun b : Bounty => b.issue_id == 42 && b.status == "open")
      (handleBountyCreation initialDB pCreate42 (fun _ => true)).1.bounties ≤ 1 ∧
    (handleBountyCreation (handleBountyCreation initialDB pCreate42 (fun _ => true)).1
        pCreate42 (fun _ => true)).1.bounties =
      (handleBountyCreation initialDB pCreate42 (fun _ => true)).1.bounties := by
  constructor
  · exact c1_unique_open_bounty.1 _
      (Reachable.step Reachable.init (OpStep.create initialDB pCreate42 (fun _ => true)))
      42
  · exact c1_unique_open_bounty.2 _ pCreate42 (fun _ => true) issue42 rfl (by decide)

/-- When the trigger condition holds for the row about to be inserted, the
insert raises the trigger's error. -/
theorem insertBounty_error {db : DB} {row : Bounty}
    (h : check_unique_open_bounty db.bounties { row with id := db.nextBountyId } = true) :
    insertBounty db row = .error uniqueOpenBountyErr := by
  unfold insertBounty
  rw [h]
  rfl

/-- C3 counterexample: when the bounty insert raises the uniqueness
violation (here: the database observed at insert time already holds an open
bounty for issue 42, as a concurrently committed creation would leave it),
`handleBountyCreation`'s insert phase posts **no** notification and
propagates the error (lines 1053-1055 log and rethrow), contradicting the
claim that it emits the duplicate-open-bounty notification and returns
without error. -/
theorem c3_insert_violation_cex :
    createBountyInsertPhase dbOpen42 pCreate42 issue42 500 (fun _ => true) =
      (dbOpen42, [], .error (.db uniqueOpenBountyErr)) := by
  rfl

/-- C3 amended: a uniqueness violation raised by the bounty insert is
logged and **rethrown**: the creation handler emits no notification and the
error propagates to its caller; only the pre-check path (line 1015) emits
the duplicate-open-bounty notification. -/
theorem c3_insert_violation_amended :
    ∀ (db : DB) (p : Payload) (iss : IssuePayload) (amount : Nat) (nok : Post → Bool),
      (db.bounties.any (fun b =>
        b.issue_id == iss.id && b.id != db.nextBountyId && b.status == "open")) = true →
      createBountyInsertPhase db p iss amount nok =
        (db, [], .error (.db uniqueOpenBountyErr)) := by
  intro db p iss amount nok hany
  unfold createBountyInsertPhase
  rw [insertBounty_error (by simpa [check_unique_open_bounty] using hany)]

/-- Witness for C3's amended statement at a concrete store. -/
theorem c3_insert_violation_amended_witness :
    createBountyInsertPhase dbOpen42 pCreate42 issue42 300 (fun _ => false) =
      (dbOpen42, [], .error (.db uniqueOpenBountyErr)) :=
  c3_insert_violation_amended dbOpen42 pCreate42 issue42 300 (fun _ => false) (by decide)

/-- C4 counterexample: an internal handler error is surfaced to the sender
as a 500 failure response, not acknowledged with success.  Concretely: a
valid `issue_comment`/`created` delivery whose `/create-bounty 500` hits an
existing open bounty, with the duplicate-notification post failing — the
creation handler rethrows (lines 1053-1055) and the dispatcher's `catch`
responds `500` (line 846). -/
theorem c4_webhook_500_cex :
    webhookRoute dbOpen42 "issue_comment" (.ok true) pCreate42 (fun _ => false) =
      (dbOpen42, [], 500) := by
  rfl

/-- C4 amended: the dispatcher responds `200 Webhook received` exactly when
signature verification and the routed handling complete without a thrown
error.  A thrown verification error yields `500` with no processing; the
*boolean* result of verification is discarded (line 800), so a delivery
whose signature check merely returns `false` is processed like a valid one;
and a propagated handler error yields `500` (lines 844-847), the error
being logged, with any already-committed database writes kept. -/
theorem c4_webhook_ack_amended :
    (∀ (db : DB) (event : String) (p : Payload) (nok : Post → Bool) (e : JsErr),
      webhookRoute db event (.error e) p nok = (db, [], 500)) ∧
    (∀ (db : DB) (event : String) (p : Payload) (nok : Post → Bool) (v : Bool),
      webhookRoute db event (.ok v) p nok = webhookRoute db event (.ok true) p nok) ∧
    (∀ (db : DB) (event : String) (p : Payload) (nok : Post → Bool) (v : Bool)
        (u : Unit),
      (webhookBody db event p nok).2.2 = .ok u →
      (webhookRoute db event (.ok v) p nok).2.2 = 200) ∧
    (∀ (db : DB) (event : String) (p : Payload) (nok : Post → Bool) (v : Bool)
        (e : JsErr),
      (webhookBody db event p nok).2.2 = .error e →
      (webhookRoute db event (.ok v) p nok).2.2 = 500) := by
  refine ⟨?_, ?_, ?_, ?_⟩
  · intro db event p nok e
    rfl
  · intro db event p nok v
    rfl
  · intro db event p nok v u h
    unfold webhookRoute
    dsimp only
    rw [h]
  · intro db event p nok v e h
    unfold webhookRoute
    dsimp only
    rw [h]

/-- Witness for C4's amended statement at concrete deliveries. -/
theorem c4_webhook_ack_amended_witness :
    webhookRoute dbOpen42 "issues" (.error .typeError) pCreate42 (fun _ => true) =
      (dbOpen42, [], 500) ∧
    (webhookRoute dbOpen42 "push" (.ok false) pCreate42 (fun _ => true)).2.2 = 200 ∧
    (webhookRoute dbOpen42 "issue_comment" (.ok true) pCreate42
      (fun _ => false)).2.2 = 500 := by
  refine ⟨?_, ?_, ?_⟩
  · exact c4_webhook_ack_amended.1 dbOpen42 "issues" pCreate42 (fun _ => true)
      .typeError
  · exact c4_webhook_ack_amended.2.2.1 dbOpen42 "push" pCreate42 (fun _ => true)
      false () rfl
  · exact c4_webhook_ack_amended.2.2.2 dbOpen42 "issue_comment" pCreate42
      (fun _ => false) true .httpError rfl

/-- Shared shape of a successful approval: no status precondition guards
the route; it sets the matching rows to `payment pending`/`claimed_by` and
returns the payout data. -/
theorem approve_success_shape
    (db : DB) (req bid cid : Nat) (b : Bounty) (cl : ClaimRow)
    (ow cm : UserRow) (oa ca : String)
    (hb : db.bounties.find? (fun x => x.id == bid) = some b)
    (hcl : db.bounty_claims.find?
      (fun c => c.bounty_id == bid && c.user_id == cid) = some cl)
    (hcr : b.creator_id = req)
    (how : db.users.find? (fun u => u.github_id == b.creator_id) = some ow)
    (hcm : db.users.find? (fun u => u.github_id == cid) = some cm)
    (hoa : ow.solana_address = some oa) (hoa2 : oa ≠ "")
    (hca : cm.solana_address = some ca) (hca2 : ca ≠ "") :
    approveBountyVerify db req bid cid =
      ({ db with bounties := db.bounties.map (fun x =>
          if x.id == bid then
            { x with status := "payment pending", claimed_by := some cid }
          else x) },
        .payout oa ca b.amount bid) := by
  have hbne : (b.creator_id != req) = false := by simp [hcr]
  have h1 : jsFalsyStr ow.solana_address = false := by
    simp [jsFalsyStr, hoa, hoa2]
  have h2 : jsFalsyStr cm.solana_address = false := by
    simp [jsFalsyStr, hca, hca2]
  have hupd := runBountyUpdate_ok_of_nonopen (fun x => x.id == bid)
    (fun x => { x with status := "payment pending", claimed_by := some cid })
    (by intro x; rfl) db.bounties []
  simp only [approveBountyVerify, hb, hcl, hbne, how, hcm, h1, h2, Bool.or_self,
    Bool.false_eq_true, if_false, hupd, List.nil_append]
  simp [hoa, hca]

/-- C5: approval by the bounty's creator of a claimant with an existing
claim, both sides having a registered Solana address, sets the bounty's
status to `payment pending` and `claimed_by` to the claimant and returns
the payout triple (creator's address, claimant's address, bounty amount);
a requester who is not the creator is rejected with no state change. -/
theorem c5_approve_flow :
    (∀ (db : DB) (req bid cid : Nat) (b : Bounty) (cl : ClaimRow)
        (ow cm : UserRow) (oa ca : String),
      db.bounties.find? (fun x => x.id == bid) = some b →
      db.bounty_claims.find?
        (fun c => c.bounty_id == bid && c.user_id == cid) = some cl →
      b.creator_id = req →
      db.users.find? (fun u => u.github_id == b.creator_id) = some ow →
      db.users.find? (fun u => u.github_id == cid) = some cm →
      ow.solana_address = some oa → oa ≠ "" →
      cm.solana_address = some ca → ca ≠ "" →
      approveBountyVerify db req bid cid =
        ({ db with bounties := db.bounties.map (fun x =>
            if x.id == bid then
              { x with status := "payment pending", claimed_by := some cid }
            else x) },
          .payout oa ca b.amount bid)) ∧
    (∀ (db : DB) (req bid cid : Nat) (b : Bounty),
      db.bounties.find? (fun x => x.id == bid) = some b →
      b.creator_id ≠ req →
      (approveBountyVerify db req bid cid).1 = db ∧
        ((approveBountyVerify db req bid cid).2 = .noClaim ∨
          (approveBountyVerify db req bid cid).2 = .unauthorized)) := by
  constructor
  · intro db req bid cid b cl ow cm oa ca hb hcl hcr how hcm hoa hoa2 hca hca2
    exact approve_success_shape db req bid cid b cl ow cm oa ca hb hcl hcr how hcm
      hoa hoa2 hca hca2
  · intro db req bid cid b hb hne
    have hbne : (b.creator_id != req) = true := by simp [bne_iff_ne, hne]
    cases hcl : db.bounty_claims.find?
        (fun c => c.bounty_id == bid && c.user_id == cid) with
    | none =>
      simp only [approveBountyVerify, hb, hcl]
      simp
    | some cl =>
      simp only [approveBountyVerify, hb, hcl, hbne, if_true]
      simp

/-- Witness for C5: on the concrete store with open bounty 9 and user 2's
claim, the creator's approval succeeds with the payout triple, and user 2's
own approval attempt is rejected without state change. -/
theorem c5_approve_flow_witness :
    approveBountyVerify dbOpenWithClaim 1 9 2 =
      ({ dbOpenWithClaim with bounties := dbOpenWithClaim.bounties.map (fun x =>
          if x.id == 9 then
            { x with status := "payment pending", claimed_by := some 2 }
          else x) },
        .payout "OWNERSOL" "CLAIMSOL" 100 9) ∧
    (approveBountyVerify dbOpenWithClaim 2 9 2).1 = dbOpenWithClaim := by
  constructor
  · exact c5_approve_flow.1 dbOpenWithClaim 1 9 2 bountyOpen9 claimRow97
      userOwner userClaimant "OWNERSOL" "CLAIMSOL" rfl rfl rfl rfl rfl rfl
      (by decide) rfl (by decide)
  · exact (c5_approve_flow.2 dbOpenWithClaim 2 9 2 bountyOpen9 rfl
      (by decide)).1

/-- C10: the approve route never checks the bounty's status (the lookup on
line 492 has no status filter and the update on line 541 is unconditional),
so approval of a claimant on a bounty in any status — here specifically
`completed` — succeeds and (re)sets the status to `payment pending`. -/
theorem c10_approve_ignores_status :
    ∀ (db : DB) (req bid cid : Nat) (b : Bounty) (cl : ClaimRow)
        (ow cm : UserRow) (oa ca : String),
      db.bounties.find? (fun x => x.id == bid) = some b →
      b.status = "completed" →
      db.bounty_claims.find?
        (fun c => c.bounty_id == bid && c.user_id == cid) = some cl →
      b.creator_id = req →
      db.users.find? (fun u => u.github_id == b.creator_id) = some ow →
      db.users.find? (fun u => u.github_id == cid) = some cm →
      ow.solana_address = some oa → oa ≠ "" →
      cm.solana_address = some ca → ca ≠ "" →
      approveBountyVerify db req bid cid =
        ({ db with bounties := db.bounties.map (fun x =>
            if x.id == bid then
              { x with status := "payment pending", claimed_by := some cid }
            else x) },
          .payout oa ca b.amount bid) := by
  intro db req bid cid b cl ow cm oa ca hb _ hcl hcr how hcm hoa hoa2 hca hca2
  exact approve_success_shape db req bid cid b cl ow cm oa ca hb hcl hcr how hcm
    hoa hoa2 hca hca2

/-- Witness for C10: approving user 2 on the **completed** bounty 9 succeeds
and moves it back to `payment pending`. -/
theorem c10_approve_ignores_status_witness :
    approveBountyVerify dbCompleted9 1 9 2 =
      ({ dbCompleted9 with bounties := dbCompleted9.bounties.map (fun x =>
          if x.id == 9 then
            { x with status := "payment pending", claimed_by := some 2 }
          else x) },
        .payout "OWNERSOL" "CLAIMSOL" 100 9) :=
  c10_approve_ignores_status dbCompleted9 1 9 2 bountyCompleted9 claimRow97
    userOwner userClaimant "OWNERSOL" "CLAIMSOL" rfl rfl rfl rfl rfl rfl rfl
    (by decide) rfl (by decide)

/-- C7 counterexample: the delete route checks only `id` and `creator_id`
(line 690), never the status, so the creator's deletion of the **completed**
bounty 9 succeeds — the bounty row and its claim row are removed and the
claimant is notified — contradicting "rejected once completed". -/
theorem c7_delete_completed_cex :
    deleteBounty dbCompleted9 1 9 (fun _ => true) =
      ({ dbCompleted9 with bounties := [], bounty_claims := [] },
        [Post.issueComment "org" "repo" 42 (deletedBountyMsg 2 9)],
        .success) := by
  rfl

/-- C7 amended: deletion succeeds exactly when the requester is the
bounty's creator, **regardless of status** (a completed bounty is also
deletable); on success all claim rows of the bounty and the bounty row are
removed together in the route's single transaction, and otherwise the store
is unchanged. -/
theorem c7_delete_amended :
    (∀ (db : DB) (req bid : Nat) (nok : Post → Bool),
      db.bounties.find? (fun b => b.id == bid && b.creator_id == req) = none →
      deleteBounty db req bid nok = (db, [], .notFoundOrNotOwner)) ∧
    (∀ (db : DB) (req bid : Nat) (nok : Post → Bool) (b : Bounty),
      db.bounties.find? (fun b => b.id == bid && b.creator_id == req) = some b →
      (deleteBounty db req bid nok).1 =
        { db with
          bounty_claims := db.bounty_claims.filter (fun c => !(c.bounty_id == bid))
          bounties := db.bounties.filter (fun x => !(x.id == bid)) } ∧
      (deleteBounty db req bid nok).2.2 = .success) := by
  constructor
  · intro db req bid nok h
    simp only [deleteBounty, h]
  · intro db req bid nok b h
    simp only [deleteBounty, h]
    exact ⟨trivial, trivial⟩

/-- Witness for C7's amended statement: a non-creator's attempt changes
nothing, and the creator's deletion of open bounty 9 removes both rows. -/
theorem c7_delete_amended_witness :
    deleteBounty dbOpenWithClaim 2 9 (fun _ => true) =
      (dbOpenWithClaim, [], .notFoundOrNotOwner) ∧
    (deleteBounty dbOpenWithClaim 1 9 (fun _ => true)).1 =
      { dbOpenWithClaim with
        bounty_claims := dbOpenWithClaim.bounty_claims.filter
          (fun c => !(c.bounty_id == 9))
        bounties := dbOpenWithClaim.bounties.filter (fun x => !(x.id == 9)) } := by
  constructor
  · exact c7_delete_amended.1 dbOpenWithClaim 2 9 (fun _ => true) rfl
  · exact (c7_delete_amended.2 dbOpenWithClaim 1 9 (fun _ => true) bountyOpen9
      rfl).1

/-- A pull-request fan-out containing a failing post does not complete. -/
theorem prFanout_snd_false (nok : Post → Bool) (mk : Nat → Post) :
    ∀ (l : List Nat) (pr : Nat), pr ∈ l → nok (mk pr) = false →
      (prFanout nok mk l).2 = false := by
  intro l
  induction l with
  | nil =>
    intro pr h
    simp at h
  | cons a rest ih =>
    intro pr hmem hf
    simp only [prFanout]
    by_cases ha : nok (mk a) = true
    · simp only [ha, if_true]
      rcases List.mem_cons.1 hmem with heq | hmem'
      · subst heq
        rw [hf] at ha
        exact absurd ha (by simp)
      · exact ih pr hmem' hf
    · simp only [Bool.not_eq_true] at ha
      simp [ha]

/-- A pull-request fan-out whose posts all succeed completes. -/
theorem prFanout_snd_true (nok : Post → Bool) (mk : Nat → Post) :
    ∀ l : List Nat, (∀ pr ∈ l, nok (mk pr) = true) →
      prFanout nok mk l = (l.map mk, true) := by
  intro l
  induction l with
  | nil =>
    intro _
    rfl
  | cons a rest ih =>
    intro h
    simp only [prFanout, h a (by simp), if_true, ih (fun pr hpr => h pr (by simp [hpr]))]
    rfl

/-- C8 counterexample: bounty 9 has claims on pull requests 7 and 8; the
amendment post on PR 7 fails.  The amount change is committed, the issue
notice is posted, but PR 8 receives **no** notice (the loop on lines
659-671 has no per-item isolation) and the request ends in an error
response — contradicting "does not abort posting on the remaining pull
requests". -/
theorem c8_fanout_cex :
    updateBountyAmount dbTwoClaims 1 9 999 nokFailPR7 =
      ({ dbTwoClaims with bounties := [{ bountyOpen9 with amount := 999 }] },
        [Post.issueComment "org" "repo" 42 (amendBody 100 999)],
        .serverError) := by
  rfl

/-- C8 amended: the committed amount change is indeed unaffected by any
notification outcome (first two conjuncts: the final store does not depend
on the oracle), but the per-PR fan-out is **not** isolated: one failing
pull-request post makes the whole request fail (last conjunct), leaving the
remaining pull requests unnotified; when every post succeeds the route
responds success. -/
theorem c8_fanout_amended :
    (∀ (db : DB) (req bid : Nat) (amt : Int) (nok : Post → Bool) (b : Bounty)
        (tb : List Bounty),
      db.bounties.find? (fun x => x.id == bid && x.creator_id == req) = some b →
      runBountyUpdate (fun x => x.id == bid)
        (fun x => { x with amount := amt }) [] db.bounties = .ok tb →
      (updateBountyAmount db req bid amt nok).1 = { db with bounties := tb }) ∧
    (∀ (db : DB) (req bid : Nat) (amt : Int) (nok : Post → Bool) (b : Bounty)
        (tb : List Bounty),
      db.bounties.find? (fun x => x.id == bid && x.creator_id == req) = some b →
      runBountyUpdate (fun x => x.id == bid)
        (fun x => { x with amount := amt }) [] db.bounties = .ok tb →
      (∀ pr ∈ (db.bounty_claims.filter (fun c => c.bounty_id == bid)).map
          (fun c => c.pull_request),
        nok (Post.reviewComment (repoOwnerOf b.repository)
          (repoNameOf b.repository) pr (amendBody b.amount amt)) = true) →
      (updateBountyAmount db req bid amt nok).2.2 = .success) ∧
    (∀ (db : DB) (req bid : Nat) (amt : Int) (nok : Post → Bool) (b : Bounty)
        (tb : List Bounty) (pr : Nat),
      db.bounties.find? (fun x => x.id == bid && x.creator_id == req) = some b →
      runBountyUpdate (fun x => x.id == bid)
        (fun x => { x with amount := amt }) [] db.bounties = .ok tb →
      pr ∈ (db.bounty_claims.filter (fun c => c.bounty_id == bid)).map
        (fun c => c.pull_request) →
      nok (Post.reviewComment (repoOwnerOf b.repository)
        (repoNameOf b.repository) pr (amendBody b.amount amt)) = false →
      (updateBountyAmount db req bid amt nok).2.2 = .serverError) := by
  refine ⟨?_, ?_, ?_⟩
  · intro db req bid amt nok b tb hfind hupd
    simp only [updateBountyAmount, hfind, hupd]
    split
    · rfl
    · rfl
  · intro db req bid amt nok b tb hfind hupd hall
    have hfan := prFanout_snd_true nok
      (fun pr => Post.reviewComment (repoOwnerOf b.repository)
        (repoNameOf b.repository) pr (amendBody b.amount amt))
      ((db.bounty_claims.filter (fun c => c.bounty_id == bid)).map
        (fun c => c.pull_request)) hall
    simp only [updateBountyAmount, hfind, hupd, hfan]
    simp
  · intro db req bid amt nok b tb pr hfind hupd hmem hf
    have hfan := prFanout_snd_false nok
      (fun pr => Post.reviewComment (repoOwnerOf b.repository)
        (repoNameOf b.repository) pr (amendBody b.amount amt))
      ((db.bounty_claims.filter (fun c => c.bounty_id == bid)).map
        (fun c => c.pull_request)) pr hmem hf
    simp only [updateBountyAmount, hfind, hupd, hfan]
    simp

/-- Witness for C8's amended statement on the two-claim store: the amount
change is committed even under the failing oracle, the all-success oracle
yields a success response, and the PR-7-failing oracle yields an error
response. -/
theorem c8_fanout_amended_witness :
    (updateBountyAmount dbTwoClaims 1 9 999 nokFailPR7).1 =
      { dbTwoClaims with bounties := [{ bountyOpen9 with amount := 999 }] } ∧
    (updateBountyAmount dbTwoClaims 1 9 999 (fun _ => true)).2.2 = .success ∧
    (updateBountyAmount dbTwoClaims 1 9 999 nokFailPR7).2.2 = .serverError := by
  refine ⟨?_, ?_, ?_⟩
  · exact c8_fanout_amended.1 dbTwoClaims 1 9 999 nokFailPR7 bountyOpen9
      [{ bountyOpen9 with amount := 999 }] rfl rfl
  · exact c8_fanout_amended.2.1 dbTwoClaims 1 9 999 (fun _ => true) bountyOpen9
      [{ bountyOpen9 with amount := 999 }] rfl rfl (by intro pr _; rfl)
  · exact c8_fanout_amended.2.2 dbTwoClaims 1 9 999 nokFailPR7 bountyOpen9
      [{ bountyOpen9 with amount := 999 }] 7 rfl rfl (by decide) rfl

/-- C9: a `/create-bounty` whose argument is missing or non-numeric leaves
the store untouched, posts nothing and returns normally ("no command
found"), on both text sources (comment body, issue body). -/
theorem c9_bad_argument_noop :
    (∀ (db : DB) (p : Payload) (nok : Post → Bool) (c : String),
      p.comment = some c →
      strIncludes c createBountyCmd = true →
      parseCommandArg createBountyCmd c = none →
      handleBountyCreation db p nok = (db, [], .ok none)) ∧
    (∀ (db : DB) (p : Payload) (nok : Post → Bool) (iss : IssuePayload)
        (bdy : String),
      p.comment = none →
      p.issue = some iss →
      iss.body = some bdy →
      strIncludes bdy createBountyCmd = true →
      parseCommandArg createBountyCmd bdy = none →
      handleBountyCreation db p nok = (db, [], .ok none)) := by
  constructor
  · intro db p nok c hc _ hparse
    simp only [handleBountyCreation, creationParsedAmount, hc, hparse]
    rfl
  · intro db p nok iss bdy hc hiss hbdy _ hparse
    simp only [handleBountyCreation, creationParsedAmount, hc, hiss, hbdy, hparse]
    rfl

/-- Witness for C9 at concrete payloads with a non-numeric and a missing
argument. -/
theorem c9_bad_argument_noop_witness :
    handleBountyCreation initialDB pBadArgComment (fun _ => true) =
      (initialDB, [], .ok none) ∧
    handleBountyCreation initialDB pBadArgIssue (fun _ => true) =
      (initialDB, [], .ok none) := by
  constructor
  · exact c9_bad_argument_noop.1 initialDB pBadArgComment (fun _ => true)
      "/create-bounty abc" rfl (by decide) (by decide)
  · exact c9_bad_argument_noop.2 initialDB pBadArgIssue (fun _ => true)
      issue43 "please /create-bounty" rfl rfl rfl (by decide) (by decide)

/-- C2 evaluated at its failing input: pull request 7 re-triggers
`/claim-bounty 9` while bounty 9 is open and already claimed on PR 7.  No
second claim row appears — but not because the unique-claim trigger fired:
the insert (line 1151) names the column `pull_request_number`, which the
`bounty_claims` schema (line 93: `pull_request`) does not define, so it
raises SQLSTATE `42703`; the `catch` only recognises `23505` (line 1159),
so the error is merely logged and **no** "already claimed" comment is
posted (and the trigger's own `RAISE` would carry `P0001`, not `23505`,
so that branch is unreachable even with matching column names). -/
theorem c2_reclaim_only_logged :
    handleBountyClaim dbOpenWithClaim pClaim9PR (fun _ => true) =
      (dbOpenWithClaim, [], .ok ()) ∧
    insertBountyClaim dbOpenWithClaim 9 2 7 = .error undefinedColumnErr ∧
    undefinedColumnErr.code ≠ "23505" ∧
    uniqueClaimErr.code ≠ "23505" := by
  refine ⟨rfl, rfl, by decide, by decide⟩

/-- C6 evaluated at its failing input: pull request 7 is opened by the
registered non-creator user 2 with body `/claim-bounty 9` against the open
bounty 9 with no prior claims.  The claim insert targets the nonexistent
column `pull_request_number` (second conjunct: the insert's column list is
not contained in the schema), so **no** claim row is created and **no**
pending-review comment is posted; the handler merely logs and returns. -/
theorem c6_claim_insert_fails :
    handleBountyClaim dbFirstClaim pClaim9PR (fun _ => true) =
      (dbFirstClaim, [], .ok ()) ∧
    (claimInsertTargetColumns.all
      (fun c => bountyClaimsSchemaColumns.contains c)) = false := by
  exact ⟨rfl, by decide⟩
